import Mathlib

/-!
Verification of the Live External Resource Session subsystem of axe-annotate.

The definitions below are a shallow embedding of `src/excel_ops.py` and
`src/main.py`.  External host state (Excel, reached through xlwings and the
raw COM interface) is modelled explicitly: a cell read that can raise is an
`Option`, an attempt of a retried operation is parameterised by the outcome
the host produces for that attempt, and the note store of the host is a map
from cell coordinates to an optional note text.
-/

namespace AxeAnnotate

/-! ## Python string primitives used by `_is_likely_label` -/

/-- Characters stripped by Python's `str.strip()` (whitespace at both ends). -/
def stripWs (cs : List Char) : List Char :=
  ((cs.dropWhile Char.isWhitespace).reverse.dropWhile Char.isWhitespace).reverse

/-- Python `str.strip()` on a Lean string. -/
def pyStrip (s : String) : String :=
  ⟨stripWs s.data⟩

/-- Tail of a Python float digit-part after its first digit: digits with
single underscores allowed only between digits. -/
def digitTail : List Char → Bool
  | [] => true
  | ['_'] => false
  | '_' :: c :: cs => c.isDigit && digitTail cs
  | c :: cs => c.isDigit && digitTail cs

/-- A Python float grammar `digitpart`: `digit (["_"] digit)*`. -/
def digitPart : List Char → Bool
  | [] => false
  | c :: cs => c.isDigit && digitTail cs

/-- Split a character list at the first character satisfying `p`; the second
component is `none` when no such character occurs. -/
def splitAtFirst (p : Char → Bool) : List Char → List Char × Option (List Char)
  | [] => ([], none)
  | c :: cs =>
    if p c then ([], some cs)
    else
      let r := splitAtFirst p cs
      (c :: r.1, r.2)

/-- Mantissa of a Python float literal: `digitpart`, `digitpart "."
digitpart?`, or `"." digitpart`. -/
def mantissaOk (cs : List Char) : Bool :=
  match splitAtFirst (fun c => c = '.') cs with
  | (l, none) => digitPart l
  | ([], some []) => false
  | ([], some r) => digitPart r
  | (l, some []) => digitPart l
  | (l, some r) => digitPart l && digitPart r

/-- Drop one optional leading sign. -/
def dropSign : List Char → List Char
  | '+' :: cs => cs
  | '-' :: cs => cs
  | cs => cs

/-- The special float strings accepted by Python: inf, infinity, nan
(case-insensitive). -/
def isInfNan (cs : List Char) : Bool :=
  let l := cs.map Char.toLower
  l = ['i', 'n', 'f'] || l = ['i', 'n', 'f', 'i', 'n', 'i', 't', 'y'] ||
    l = ['n', 'a', 'n']

/-- A Python float number with optional exponent. -/
def pyNumberOk (cs : List Char) : Bool :=
  match splitAtFirst (fun c => c = 'e' || c = 'E') cs with
  | (m, none) => mantissaOk m
  | (m, some e) => mantissaOk m && digitPart (dropSign e)

/-- Model of `float(s)` succeeding on the string `s`: Python strips
whitespace, accepts one optional sign, then either inf/infinity/nan or a
number literal. -/
def pyFloatAccepts (cs : List Char) : Bool :=
  let cs1 := dropSign (stripWs cs)
  isInfNan cs1 || pyNumberOk cs1

/-! ## Cell values (`excel_ops.py`) -/

/-- A value read from a cell, as xlwings hands it to Python: `None`, a
number (`int`/`float`), a `bool` (which Python treats as an `int`), or a
string. -/
inductive CellValue where
  | empty
  | num (q : ℚ)
  | boolean (b : Bool)
  | str (s : String)
deriving DecidableEq, Repr

/-- Python `str(value)` for the cell values above. -/
def pyStr : CellValue → String
  | .empty => "None"
  | .num q => toString q
  | .boolean b => if b then "True" else "False"
  | .str s => s

/-- Python truthiness of a cell value. -/
def pyTruthy : CellValue → Bool
  | .empty => false
  | .num q => decide (q ≠ 0)
  | .boolean b => b
  | .str s => decide (s ≠ "")

/-- `s_val.replace(",", "").replace("$", "").replace("%", "")` from
`_is_likely_label`. -/
def strip_numeric_punct (s : String) : List Char :=
  s.data.filter (fun c => !(c = ',' || c = '$' || c = '%'))

/-- `excel_ops._is_likely_label`: `None` and numeric types (including
`bool`, an `int` subclass) are not labels; otherwise the stripped string
must be non-empty and must not parse as a float once comma, dollar and
percent characters are removed. -/
def is_likely_label : CellValue → Bool
  | .empty => false
  | .num _ => false
  | .boolean _ => false
  | .str s =>
    let sVal := pyStrip s
    if sVal = "" then false
    else !pyFloatAccepts (strip_numeric_punct sVal)

/-! ## Sheets and safe cell reads -/

/-- A sheet as seen through `sheet.range((row, col)).value`: `none` means
the read raises, `some v` means it returns `v` (an empty cell returns
Python `None`, i.e. `CellValue.empty`). -/
def Sheet : Type := Nat → Nat → Option CellValue

/-- `excel_ops._safe_read_cell`: any exception is collapsed to `None`. -/
def safe_read_cell (sheet : Sheet) (row col : Nat) : CellValue :=
  match sheet row col with
  | some v => v
  | none => .empty

/-! ## `excel_ops.get_context` -/

/-- The `for c in range(col_idx - 1, 0, -1)` scan of `get_context`: starting
at column `m` and walking down to column 1 in row `row`, return the value of
the first cell `_is_likely_label` accepts, else `none`. -/
def scan_left (sheet : Sheet) (row : Nat) : Nat → Option CellValue
  | 0 => none
  | c + 1 =>
    let val := safe_read_cell sheet row (c + 1)
    if is_likely_label val then some val else scan_left sheet row c

/-- The `for r in range(row_idx - 1, 0, -1)` scan of `get_context`: starting
at row `m` and walking up to row 1 in column `col`, return the value of the
first cell `_is_likely_label` accepts, else `none`. -/
def scan_up (sheet : Sheet) (col : Nat) : Nat → Option CellValue
  | 0 => none
  | r + 1 =>
    let val := safe_read_cell sheet (r + 1) col
    if is_likely_label val then some val else scan_up sheet col r

/-- Python `x if x else default` on an optional string: `None` and the empty
string both fall back (this is the `if not line_item:` / `if not
time_period:` pattern in `get_context`). -/
def orDefault (x : Option String) (d : String) : String :=
  match x with
  | some s => if s = "" then d else s
  | none => d

/-- The dict returned by `get_context`. -/
structure Context where
  ticker : String
  time_period : String
  line_item : String
  cell_address : String
deriving DecidableEq, Repr

/-- The readable properties of an xlwings selection range. -/
structure SelProps where
  sheet : Sheet
  row : Nat
  column : Nat
  address : String

/-- A selection argument as `get_context` can receive it: a falsy value, a
range whose own property reads (`.sheet`, `.row`, `.column`, `.address`)
raise, or a range whose properties are readable. -/
inductive Selection where
  | noSel
  | broken (errMsg : String)
  | ok (props : SelProps)

/-- `excel_ops.get_context`.  `none` models the empty dict returned for a
falsy selection; every other case returns a fully populated dict.  The
`broken` branch mirrors lines 365-372 of `excel_ops.py` (note the
`"Unknown Item"` default used there). -/
def get_context : Selection → Option Context
  | .noSel => none
  | .broken _ => some ⟨"UNKNOWN", "Unknown Period", "Unknown Item", "?"⟩
  | .ok p =>
    let line_item :=
      orDefault ((scan_left p.sheet p.row (p.column - 1)).map
        (fun v => pyStrip (pyStr v))) "Unknown Line Item"
    let time_period :=
      orDefault ((scan_up p.sheet p.column (p.row - 1)).map
        (fun v => pyStrip (pyStr v))) "Unknown Period"
    let ticker_val := safe_read_cell p.sheet 1 1
    let ticker :=
      if pyTruthy ticker_val && is_likely_label ticker_val then
        pyStrip (pyStr ticker_val)
      else "UNKNOWN"
    some ⟨ticker, time_period, line_item, p.address⟩

/-! ## Errors, configuration and the retry loop of `get_active_selection` -/

/-- Module-level configuration constants of `excel_ops.py`. -/
def MAX_RETRIES : Nat := 3

/-- `RETRY_DELAY_BASE = 0.3` seconds. -/
def RETRY_DELAY_BASE : ℚ := 3 / 10

/-- A Python exception as the retry loops see one: either a
`ConnectionError` (raised by the attempt body for missing host / workbook /
sheet / selection preconditions) or any other exception (transient interop
failures).  Both are subclasses of `Exception`. -/
inductive PyErr where
  | connection (msg : String)
  | other (msg : String)
deriving DecidableEq, Repr

/-- `true` on exceptions. -/
def exceptFails {H : Type} : Except PyErr H → Bool
  | .ok _ => false
  | .error _ => true

/-- Observable outcome of a retry loop: the returned value (`none` models
the `(None, None, None, None)` fall-through return), how many attempts were
started, and the `time.sleep` backoff delays issued between attempts, in
order. -/
structure RetryTrace (H : Type) where
  result : Option H
  attempts : Nat
  delays : List ℚ
deriving DecidableEq, Repr

/-- The `for attempt in range(max_retries)` loop of `get_active_selection`
over the remaining attempt indices: a successful attempt returns at once;
an exception of any class (the `except Exception` on line 325 catches
`ConnectionError` as well) records the error and, when the attempt is not
the last, sleeps `RETRY_DELAY_BASE * (2 ** attempt)`. -/
def retry_go {H : Type} (body : Nat → Except PyErr H) (maxRetries : Nat) :
    List Nat → RetryTrace H
  | [] => ⟨none, 0, []⟩
  | attempt :: rest =>
    match body attempt with
    | .ok v => ⟨some v, 1, []⟩
    | .error _ =>
      let r := retry_go body maxRetries rest
      ⟨r.result, r.attempts + 1,
        if attempt < maxRetries - 1 then
          RETRY_DELAY_BASE * 2 ^ attempt :: r.delays
        else r.delays⟩

/-- `excel_ops.get_active_selection`, parameterised by the outcome `body`
the host produces for each attempt.  When every attempt raises, the
function falls through to `return None, None, None, None`. -/
def get_active_selection {H : Type} (body : Nat → Except PyErr H)
    (maxRetries : Nat) : RetryTrace H :=
  retry_go body maxRetries (List.range maxRetries)

/-! ## One acquisition attempt (steps 3-5 of `get_active_selection`)

Steps 1-2 (connecting through `win32com.GetActiveObject`, the readiness
wait, and the screen-updating refresh) only decide whether an attempt runs
at all; they are absorbed into the per-attempt outcome above.  Steps 3-5
(workbook, sheet and selection resolution) are modelled in full below. -/

/-- The wrapper selection values read on lines 279-282 (`app.selection`,
`.address`, `.row`, `.column`). -/
structure WrapSel where
  address : String
  row : Nat
  column : Nat
deriving DecidableEq, Repr

/-- A snapshot of the host as the two access paths of one attempt see it.
An outer `none` on a field means the corresponding property read raises;
`some none` means the property is Python `None`. -/
structure HostView where
  /-- `app.api.ActiveWorkbook` and its `.Name`. -/
  apiActiveBook : Option (Option String)
  /-- Whether `app.books[name]` succeeds (no `KeyError`). -/
  bookLookup : String → Bool
  /-- `app.books.active`, by workbook name. -/
  booksActive : Option String
  /-- `app.api.ActiveSheet` and its `.Name`: the live low-level interface's
  active sheet, read on line 261 and again on line 287. -/
  apiActiveSheet : Option (Option String)
  /-- Whether `book.sheets[name]` succeeds (no `KeyError`). -/
  sheetLookup : String → Bool
  /-- `book.sheets.active`, by sheet name. -/
  sheetsActive : Option String
  /-- The wrapper's selection accessor (`app.selection` and its address /
  row / column reads). -/
  wrapSel : Option WrapSel
  /-- `selection.sheet.name`: the sheet the wrapper believes owns the
  selection. -/
  selSheetName : Option String
  /-- `app.api.Selection` with its `.Row` / `.Column`. -/
  apiSel : Option (Option (Nat × Nat))

/-- Step 3 (lines 240-257): resolve the workbook by its live name, falling
back to `app.books.active` on a `KeyError` or any other exception. -/
def resolve_book (h : HostView) : Except PyErr String :=
  match h.apiActiveBook with
  | some (some name) =>
    if h.bookLookup name then .ok name
    else
      match h.booksActive with
      | some b => .ok b
      | none => .error (.connection "No active workbook.")
  | some none =>
    match h.booksActive with
    | some b => .ok b
    | none => .error (.connection "Cannot access workbook: No active workbook.")
  | none =>
    match h.booksActive with
    | some b => .ok b
    | none => .error (.connection "Cannot access workbook.")

/-- Step 4 (lines 259-274): resolve the sheet by the live
`app.api.ActiveSheet.Name`, falling back to `book.sheets.active` on a
`KeyError` or any other exception. -/
def resolve_sheet (h : HostView) : Except PyErr String :=
  match h.apiActiveSheet with
  | some (some name) =>
    if h.sheetLookup name then .ok name
    else
      match h.sheetsActive with
      | some s => .ok s
      | none => .error (.connection "No active sheet.")
  | some none =>
    match h.sheetsActive with
    | some s => .ok s
    | none => .error (.connection "Cannot access sheet: No active sheet.")
  | none =>
    match h.sheetsActive with
    | some s => .ok s
    | none => .error (.connection "Cannot access sheet.")

/-- The selection part of the returned handle: either the wrapper's own
selection object was kept, or the selection was rebuilt as
`sheet.range((row, col))` on the already-resolved sheet from the low-level
interface's live coordinates. -/
inductive SelResult where
  | wrapper (w : WrapSel)
  | fromApi (row col : Nat)
deriving DecidableEq, Repr

/-- The sheet-name re-read on line 287 (`app.api.ActiveSheet.Name` inside
the staleness check); a raising read or a `None` active sheet makes the
check throw, which line 304 swallows. -/
def liveActiveSheetName (h : HostView) : Option String :=
  match h.apiActiveSheet with
  | some (some n) => some n
  | _ => none

/-- Step 5 (lines 276-321): resolve the selection.  If the wrapper
selection reads succeed, cross-check its owning sheet name against the live
active sheet name; on disagreement rebuild the selection from
`app.api.Selection`'s live coordinates (keeping the wrapper selection when
the live selection is `None` or unreadable).  If the wrapper reads raise,
fall back entirely to the live coordinates, raising `ConnectionError` when
those too are missing. -/
def resolve_selection (h : HostView) : Except PyErr SelResult :=
  match h.wrapSel with
  | some w =>
    match h.selSheetName, liveActiveSheetName h with
    | some selSheet, some actualSheet =>
      if selSheet ≠ actualSheet then
        match h.apiSel with
        | some (some rc) => .ok (.fromApi rc.1 rc.2)
        | some none => .ok (.wrapper w)
        | none => .ok (.wrapper w)
      else .ok (.wrapper w)
    | _, _ => .ok (.wrapper w)
  | none =>
    match h.apiSel with
    | some (some rc) => .ok (.fromApi rc.1 rc.2)
    | some none =>
      .error (.connection
        "Cannot read selection. API fallback also failed: No selection in Excel.")
    | none => .error (.connection "Cannot read selection. API fallback also failed.")

/-- The reference chain returned by a successful attempt: workbook name,
sheet name of the resolved sheet object, and the selection. -/
structure AcqHandle where
  bookName : String
  sheetName : String
  sel : SelResult
deriving DecidableEq, Repr

/-- Steps 3-5 of one attempt of `get_active_selection` against the host
snapshot `h`. -/
def acquire_attempt (h : HostView) : Except PyErr AcqHandle := do
  let bookName ← resolve_book h
  let sheetName ← resolve_sheet h
  let sel ← resolve_selection h
  return ⟨bookName, sheetName, sel⟩

/-! ## `excel_ops.add_note_to_cell` -/

/-- The selection handed to `add_note_to_cell`: `row` and `column` are the
coordinates of the top-left cell of the range (xlwings `Range.row` /
`Range.column`), `count` the number of cells it spans.  `selection[0, 0]`
is the cell at offset `(0, 0)`, i.e. the top-left cell `(row, column)`. -/
structure RangeSel where
  row : Nat
  column : Nat
  count : Nat
deriving DecidableEq, Repr

/-- The note store of the host: at most one comment per cell, indexed by
1-based `(row, column)`. -/
def NoteState : Type := Nat × Nat → Option String

/-- The cell that receives the note (lines 436-447): for a multi-cell
range, `selection[0, 0]` — the top-left cell; otherwise the selection's own
single cell, which is also its top-left cell. -/
def note_target (sel : RangeSel) : Nat × Nat :=
  if sel.count > 1 then (sel.row, sel.column)
  else (sel.row, sel.column)

/-- `cell_api.ClearComments()`: removes any comment on the cell (the
fallback `Comment.Delete` path of lines 453-457 has the same effect on the
note store). -/
def clear_comments (st : NoteState) (addr : Nat × Nat) : NoteState :=
  fun c => if c = addr then none else st c

/-- `cell_api.AddComment(note_text)`: the COM call raises when the cell
already carries a comment, else attaches the text. -/
def add_comment (st : NoteState) (addr : Nat × Nat) (text : String) :
    Except String NoteState :=
  match st addr with
  | some _ => .error "AddComment failed: cell already has a comment"
  | none => .ok (fun c => if c = addr then some text else st c)

/-- The effect of one successful attempt body of `add_note_to_cell` (lines
434-465) on the host's note store: pick the target cell, clear any existing
comment there, then add the new comment. -/
def add_note_effect (sel : RangeSel) (text : String) (st : NoteState) :
    Except String NoteState :=
  add_comment (clear_comments st (note_target sel)) (note_target sel) text

/-- The retry loop of `add_note_to_cell` over the remaining attempt
indices, with the host's per-attempt failure injected via `attemptFails`:
returns (success, attempts started, backoff delays issued). -/
def note_retry_go (attemptFails : Nat → Bool) (maxRetries : Nat) :
    List Nat → Bool × Nat × List ℚ
  | [] => (false, 0, [])
  | attempt :: rest =>
    if attemptFails attempt then
      let r := note_retry_go attemptFails maxRetries rest
      (r.1, r.2.1 + 1,
        if attempt < maxRetries - 1 then
          RETRY_DELAY_BASE * 2 ^ attempt :: r.2.2
        else r.2.2)
    else (true, 1, [])

/-- `excel_ops.add_note_to_cell` control flow: a falsy selection returns
`False` at once (lines 428-430) with no attempt, no delay and no host
call; otherwise the clear+write sequence is retried with the same
exponential backoff schedule as `get_active_selection`, returning `False`
only once all attempts are exhausted. -/
def add_note_to_cell (selection : Option RangeSel) (note_text : String)
    (attemptFails : Nat → Bool) (maxRetries : Nat) : Bool × Nat × List ℚ :=
  match selection, note_text with
  | none, _ => (false, 0, [])
  | some _, _ => note_retry_go attemptFails maxRetries (List.range maxRetries)

/-! ## Task queue and session worker (`main.py`) -/

/-- An annotation request as enqueued by the hotkey handlers: a tag `id`
(its position-independent identity), the mode string (`"v1"` / `"v2"`) and
the optional prompt payload. -/
structure Req where
  id : Nat
  mode : String
  payload : Option String
deriving DecidableEq, Repr

/-- The external-resource calls the worker issues while processing one
request, tagged with the request's identity. -/
inductive WEv where
  | acquire (id : Nat)
  | extract (id : Nat)
  | fetch (id : Nat)
  | attachNote (id : Nat)
deriving DecidableEq, Repr

/-- The per-request pipeline of `worker_loop` (lines 97-127):
`get_active_selection`, then — only when a selection was obtained
(`hasSel`) — `get_context`, `fetch_comments` and `add_note_to_cell`. -/
def pipeline (hasSel : Nat → Bool) (r : Req) : List WEv :=
  WEv.acquire r.id ::
    (if hasSel r.id then
      [WEv.extract r.id, WEv.fetch r.id, WEv.attachNote r.id]
     else [])

/-- `main.worker_loop` over the queue contents in enqueue order: the single
worker dequeues one entry at a time, runs its full pipeline to completion
before touching the next entry, and stops at the `None` sentinel.  The
trace is the sequence of external-resource calls it issues. -/
def worker_loop (hasSel : Nat → Bool) : List (Option Req) → List WEv
  | [] => []
  | none :: _ => []
  | some r :: rest => pipeline hasSel r ++ worker_loop hasSel rest

/-- The request identity announced by an `acquire` event. -/
def acquireId : WEv → Option Nat
  | .acquire i => some i
  | _ => none

/-! ## Helper lemmas -/

/-- The delay schedule of the first `k` backoffs:
`[base * 2 ^ 0, ..., base * 2 ^ (k - 1)]`. -/
def backoff_delays (k : Nat) : List ℚ :=
  (List.range k).map (fun i => RETRY_DELAY_BASE * 2 ^ i)

lemma retry_go_succeeds {H : Type} (body : Nat → Except PyErr H) (n : Nat)
    (v : H) :
    ∀ (j a m : Nat), j < m → a + m ≤ n →
      (∀ i, i < j → exceptFails (body (a + i)) = true) →
      body (a + j) = .ok v →
      retry_go body n (List.range' a m) =
        ⟨some v, j + 1,
          (List.range' a j).map (fun i => RETRY_DELAY_BASE * 2 ^ i)⟩ := by
  intro j
  induction j with
  | zero =>
    intro a m hjm ham hfail hok
    rcases m with _ | m'
    · omega
    · rw [List.range'_succ]
      rw [Nat.add_zero] at hok
      simp [retry_go, hok]
  | succ j ih =>
    intro a m hjm ham hfail hok
    rcases m with _ | m'
    · omega
    · have hfa : exceptFails (body a) = true := by
        have := hfail 0 (by omega)
        rwa [Nat.add_zero] at this
      obtain ⟨e, he⟩ : ∃ e, body a = .error e := by
        cases hb : body a
        · exact ⟨_, rfl⟩
        · rw [hb] at hfa; simp [exceptFails] at hfa
      have ihr := ih (a + 1) m' (by omega) (by omega)
        (fun i hi => by
          have := hfail (i + 1) (by omega)
          rwa [show a + (i + 1) = a + 1 + i by omega] at this)
        (by rwa [show a + 1 + j = a + (j + 1) by omega])
      rw [List.range'_succ]
      simp only [retry_go, he]
      rw [ihr]
      have hlt : a < n - 1 := by omega
      simp only [hlt, if_true]
      rw [List.range'_succ, List.map_cons]

lemma retry_go_all_fail {H : Type} (body : Nat → Except PyErr H) (n : Nat) :
    ∀ (m a : Nat), a + m = n →
      (∀ i, i < m → exceptFails (body (a + i)) = true) →
      retry_go body n (List.range' a m) =
        ⟨none, m,
          (List.range' a (m - 1)).map (fun i => RETRY_DELAY_BASE * 2 ^ i)⟩ := by
  intro m
  induction m with
  | zero => intro a _ _; simp [retry_go]
  | succ m ih =>
    intro a ham hfail
    have hfa : exceptFails (body a) = true := by
      have := hfail 0 (by omega)
      rwa [Nat.add_zero] at this
    obtain ⟨e, he⟩ : ∃ e, body a = .error e := by
      cases hb : body a
      · exact ⟨_, rfl⟩
      · rw [hb] at hfa; simp [exceptFails] at hfa
    have ihr := ih (a + 1) (by omega)
      (fun i hi => by
        have := hfail (i + 1) (by omega)
        rwa [show a + (i + 1) = a + 1 + i by omega] at this)
    rw [List.range'_succ]
    simp only [retry_go, he]
    rw [ihr]
    rcases m with _ | m'
    · have hlt : ¬ a < n - 1 := by omega
      simp [hlt]
    · have hlt : a < n - 1 := by omega
      simp only [hlt, if_true, Nat.succ_sub_one]
      rw [show m' + 1 = m' + 1 - 1 + 1 by omega, List.range'_succ, List.map_cons]
      simp

lemma note_retry_succeeds (f : Nat → Bool) (n : Nat) :
    ∀ (j a m : Nat), j < m → a + m ≤ n →
      (∀ i, i < j → f (a + i) = true) → f (a + j) = false →
      note_retry_go f n (List.range' a m) =
        (true, j + 1,
          (List.range' a j).map (fun i => RETRY_DELAY_BASE * 2 ^ i)) := by
  intro j
  induction j with
  | zero =>
    intro a m hjm ham hfail hok
    rcases m with _ | m'
    · omega
    · rw [Nat.add_zero] at hok
      rw [List.range'_succ]
      simp [note_retry_go, hok]
  | succ j ih =>
    intro a m hjm ham hfail hok
    rcases m with _ | m'
    · omega
    · have hfa : f a = true := by
        have := hfail 0 (by omega)
        rwa [Nat.add_zero] at this
      have ihr := ih (a + 1) m' (by omega) (by omega)
        (fun i hi => by
          have := hfail (i + 1) (by omega)
          rwa [show a + (i + 1) = a + 1 + i by omega] at this)
        (by rwa [show a + 1 + j = a + (j + 1) by omega])
      rw [List.range'_succ]
      simp only [note_retry_go, hfa, if_true]
      rw [ihr]
      have hlt : a < n - 1 := by omega
      simp only [hlt, if_true]
      rw [List.range'_succ, List.map_cons]

lemma note_retry_all_fail (f : Nat → Bool) (n : Nat) :
    ∀ (m a : Nat), a + m = n → (∀ i, i < m → f (a + i) = true) →
      note_retry_go f n (List.range' a m) =
        (false, m,
          (List.range' a (m - 1)).map (fun i => RETRY_DELAY_BASE * 2 ^ i)) := by
  intro m
  induction m with
  | zero => intro a _ _; simp [note_retry_go]
  | succ m ih =>
    intro a ham hfail
    have hfa : f a = true := by
      have := hfail 0 (by omega)
      rwa [Nat.add_zero] at this
    have ihr := ih (a + 1) (by omega)
      (fun i hi => by
        have := hfail (i + 1) (by omega)
        rwa [show a + (i + 1) = a + 1 + i by omega] at this)
    rw [List.range'_succ]
    simp only [note_retry_go, hfa, if_true]
    rw [ihr]
    rcases m with _ | m'
    · have hlt : ¬ a < n - 1 := by omega
      simp [hlt]
    · have hlt : a < n - 1 := by omega
      simp only [hlt, if_true, Nat.succ_sub_one]
      rw [show m' + 1 = m' + 1 - 1 + 1 by omega, List.range'_succ, List.map_cons]
      simp

lemma note_retry_false (f : Nat → Bool) (n : Nat) :
    ∀ l : List Nat, (note_retry_go f n l).1 = false →
      (note_retry_go f n l).2.1 = l.length := by
  intro l
  induction l with
  | nil => intro _; simp [note_retry_go]
  | cons attempt rest ih =>
    intro hfalse
    by_cases hf : f attempt = true
    · simp only [note_retry_go, hf, if_true] at hfalse ⊢
      simp [ih hfalse]
    · simp only [note_retry_go, Bool.not_eq_true] at hf
      simp [note_retry_go, hf] at hfalse

lemma backoff_delays_chain (k : Nat) :
    List.Chain' (· ≤ ·) (backoff_delays k) := by
  have hb : (0 : ℚ) ≤ RETRY_DELAY_BASE := by norm_num [RETRY_DELAY_BASE]
  unfold backoff_delays
  rw [List.chain'_map]
  rcases k with _ | k'
  · simp
  · rw [List.chain'_range_succ]
    intro m _
    have h2 : (2 : ℚ) ^ m ≤ 2 ^ (m + 1) :=
      pow_le_pow_right₀ (by norm_num) (Nat.le_succ m)
    exact mul_le_mul_of_nonneg_left h2 hb

lemma is_likely_label_str {v : CellValue} (h : is_likely_label v = true) :
    ∃ s, v = .str s ∧ pyStrip s ≠ "" := by
  cases v with
  | str s =>
    refine ⟨s, rfl, ?_⟩
    intro hs
    simp [is_likely_label, hs] at h
  | empty => simp [is_likely_label] at h
  | num q => simp [is_likely_label] at h
  | boolean b => simp [is_likely_label] at h

lemma pyStrip_empty : pyStrip "" = "" := rfl

lemma is_likely_label_truthy {v : CellValue} (h : is_likely_label v = true) :
    pyTruthy v = true := by
  obtain ⟨s, rfl, hs⟩ := is_likely_label_str h
  have hne : s ≠ "" := by
    intro h0; exact hs (h0 ▸ pyStrip_empty)
  simp [pyTruthy, hne]

lemma is_likely_label_strip_ne {v : CellValue}
    (h : is_likely_label v = true) : pyStrip (pyStr v) ≠ "" := by
  obtain ⟨s, rfl, hs⟩ := is_likely_label_str h
  simpa [pyStr] using hs

lemma scan_left_found (sheet : Sheet) (row : Nat) :
    ∀ (m c : Nat), 0 < c → c ≤ m →
      is_likely_label (safe_read_cell sheet row c) = true →
      (∀ c', c < c' → c' ≤ m →
        is_likely_label (safe_read_cell sheet row c') = false) →
      scan_left sheet row m = some (safe_read_cell sheet row c) := by
  intro m
  induction m with
  | zero => intro c h0 hc _ _; omega
  | succ m ih =>
    intro c h0 hc hlab hfirst
    by_cases hceq : c = m + 1
    · subst hceq
      simp [scan_left, hlab]
    · have hm1 : is_likely_label (safe_read_cell sheet row (m + 1)) = false :=
        hfirst (m + 1) (by omega) (by omega)
      simp only [scan_left, hm1, Bool.false_eq_true, if_false]
      exact ih c h0 (by omega) hlab (fun c' h1 h2 => hfirst c' h1 (by omega))

lemma scan_up_found (sheet : Sheet) (col : Nat) :
    ∀ (m r : Nat), 0 < r → r ≤ m →
      is_likely_label (safe_read_cell sheet r col) = true →
      (∀ r', r < r' → r' ≤ m →
        is_likely_label (safe_read_cell sheet r' col) = false) →
      scan_up sheet col m = some (safe_read_cell sheet r col) := by
  intro m
  induction m with
  | zero => intro r h0 hr _ _; omega
  | succ m ih =>
    intro r h0 hr hlab hfirst
    by_cases hreq : r = m + 1
    · subst hreq
      simp [scan_up, hlab]
    · have hm1 : is_likely_label (safe_read_cell sheet (m + 1) col) = false :=
        hfirst (m + 1) (by omega) (by omega)
      simp only [scan_up, hm1, Bool.false_eq_true, if_false]
      exact ih r h0 (by omega) hlab (fun r' h1 h2 => hfirst r' h1 (by omega))

/-- One successful clear+write attempt replaces whatever note the target
cell carried and touches no other cell; because the clear precedes the
write, `AddComment` cannot hit an existing comment. -/
lemma add_note_effect_ok (sel : RangeSel) (text : String) (st : NoteState) :
    add_note_effect sel text st =
      .ok (fun c => if c = note_target sel then some text else st c) := by
  unfold add_note_effect add_comment
  have hcl : clear_comments st (note_target sel) (note_target sel) = none := by
    simp [clear_comments]
  rw [hcl]
  exact congrArg Except.ok (funext fun c => by
    by_cases hc : c = note_target sel <;> simp [clear_comments, hc])

/-! ## Claim theorems -/

/-- C5: for every cell and texts A then B, two calls of the
clear-then-write sequence of `add_note_to_cell` both succeed and leave the
target cell with exactly one note whose content is B — never the
concatenation of A and B — while every other cell keeps its previous
note. -/
theorem C5_overwrite_last_write_wins (sel : RangeSel) (A B : String)
    (st : NoteState) (hA : A ≠ "") :
    ∃ st1 st2, add_note_effect sel A st = .ok st1 ∧
      add_note_effect sel B st1 = .ok st2 ∧
      st2 (note_target sel) = some B ∧
      st2 (note_target sel) ≠ some (A ++ B) ∧
      ∀ addr, addr ≠ note_target sel → st2 addr = st addr := by
  refine ⟨_, _, add_note_effect_ok sel A st, add_note_effect_ok sel B _, ?_, ?_, ?_⟩
  · simp
  · simp only [if_pos rfl]
    intro hcontra
    have hBA : B = A ++ B := by simpa using hcontra
    have hdata : B.data = A.data ++ B.data := by
      rw [← String.data_append, ← hBA]
    have hlen := congrArg List.length hdata
    rw [List.length_append] at hlen
    have hA0 : A.data = [] := List.eq_nil_of_length_eq_zero (by omega)
    exact hA (String.ext (by rw [hA0]))
  · intro addr haddr
    simp [haddr]

/-- C5 witness at a concrete cell, texts and note store. -/
theorem C5_witness :
    ("first note" : String) ≠ "" ∧
    ∃ st1 st2,
      add_note_effect ⟨3, 4, 1⟩ "first note" (fun _ => none) = .ok st1 ∧
      add_note_effect ⟨3, 4, 1⟩ "second note" st1 = .ok st2 ∧
      st2 (note_target ⟨3, 4, 1⟩) = some "second note" ∧
      st2 (note_target ⟨3, 4, 1⟩) ≠ some ("first note" ++ "second note") ∧
      ∀ addr, addr ≠ note_target ⟨3, 4, 1⟩ → st2 addr = none :=
  ⟨by decide,
   C5_overwrite_last_write_wins ⟨3, 4, 1⟩ "first note" "second note"
     (fun _ => none) (by decide)⟩

/-- C6: for a selection spanning more than one cell, the note is written to
the top-left cell `(sel.row, sel.column)` of the selection and no other
cell of the host is modified. -/
theorem C6_multi_cell_top_left (sel : RangeSel) (text : String)
    (st : NoteState) (hmulti : sel.count > 1) :
    ∃ st', add_note_effect sel text st = .ok st' ∧
      st' (sel.row, sel.column) = some text ∧
      ∀ addr, addr ≠ (sel.row, sel.column) → st' addr = st addr := by
  have htgt : note_target sel = (sel.row, sel.column) := by
    simp [note_target]
  refine ⟨_, add_note_effect_ok sel text st, ?_, ?_⟩
  · simp [htgt]
  · intro addr haddr
    simp [htgt, haddr]

/-- C6 witness: the selection spanning (2,2)-(4,4) — top-left (2,2), nine
cells — receives the note at (2,2) only. -/
theorem C6_witness :
    (⟨2, 2, 9⟩ : RangeSel).count > 1 ∧
    ∃ st', add_note_effect ⟨2, 2, 9⟩ "annotated" (fun _ => none) = .ok st' ∧
      st' (2, 2) = some "annotated" ∧
      ∀ addr, addr ≠ (2, 2) → st' addr = none :=
  ⟨by decide,
   C6_multi_cell_top_left ⟨2, 2, 9⟩ "annotated" (fun _ => none) (by decide)⟩

/-- C10: a falsy selection makes `add_note_to_cell` return `False` at once:
zero attempts are started, no backoff delay is slept, and no clear or write
call reaches the host. -/
theorem C10_falsy_selection_returns_false (note_text : String)
    (attemptFails : Nat → Bool) (maxRetries : Nat) :
    add_note_to_cell none note_text attemptFails maxRetries = (false, 0, []) :=
  rfl

/-- C9: with requests enqueued in program order and the shutdown sentinel
behind them, the single worker's event trace is exactly the concatenation
of each request's full pipeline in enqueue order — each request's
external-resource calls finish before the next request's begin, with no
reordering or interleaving — and the requests are dequeued in FIFO
order. -/
theorem C9_fifo_no_interleaving (hasSel : Nat → Bool) (reqs : List Req) :
    worker_loop hasSel (reqs.map some ++ [none]) =
      (reqs.map (pipeline hasSel)).flatten ∧
    (worker_loop hasSel (reqs.map some ++ [none])).filterMap acquireId =
      reqs.map Req.id := by
  have htrace : ∀ rs : List Req, worker_loop hasSel (rs.map some ++ [none]) =
      (rs.map (pipeline hasSel)).flatten := by
    intro rs
    induction rs with
    | nil => rfl
    | cons r rest ih =>
      rw [List.map_cons, List.cons_append, List.map_cons, List.flatten_cons]
      show pipeline hasSel r ++ worker_loop hasSel (rest.map some ++ [none]) = _
      rw [ih]
  have hfm : ∀ rs : List Req,
      List.filterMap acquireId (rs.map (pipeline hasSel)).flatten =
        rs.map Req.id := by
    intro rs
    induction rs with
    | nil => rfl
    | cons r rest ih =>
      rw [List.map_cons, List.flatten_cons, List.filterMap_append, ih,
        List.map_cons]
      by_cases hs : hasSel r.id = true <;> simp [pipeline, acquireId, hs]
  exact ⟨htrace reqs, by rw [htrace reqs]; exact hfm reqs⟩

/-- C3 counterexample: for a selection whose own property reads raise, the
claim promises the documented default lineItemLabel "Unknown Line Item",
but `get_context` (line 370 of `excel_ops.py`) substitutes
"Unknown Item" there. -/
theorem C3_counterexample :
    get_context (Selection.broken "COM property read failed") =
      some ⟨"UNKNOWN", "Unknown Period", "Unknown Item", "?"⟩ ∧
    get_context (Selection.broken "COM property read failed") ≠
      some ⟨"UNKNOWN", "Unknown Period", "Unknown Line Item", "?"⟩ := by
  constructor
  · rfl
  · decide

/-- C3 amended: `get_context` is total (never raises); a falsy selection
yields the empty dict; a selection whose property reads raise yields the
defaults with line item "Unknown Item" (not "Unknown Line Item"); and in
the normal path a selection at (1,1) on an otherwise empty sheet yields
exactly ticker "UNKNOWN", period "Unknown Period" and line item
"Unknown Line Item". -/
theorem C3_amended_defaults (e : String) (p : SelProps)
    (hempty : ∀ r c, p.sheet r c = some CellValue.empty)
    (hrow : p.row = 1) (hcol : p.column = 1) :
    get_context Selection.noSel = none ∧
    get_context (Selection.broken e) =
      some ⟨"UNKNOWN", "Unknown Period", "Unknown Item", "?"⟩ ∧
    get_context (Selection.ok p) =
      some ⟨"UNKNOWN", "Unknown Period", "Unknown Line Item", p.address⟩ := by
  refine ⟨rfl, rfl, ?_⟩
  have h11 : safe_read_cell p.sheet 1 1 = .empty := by
    simp [safe_read_cell, hempty]
  simp [get_context, hrow, hcol, scan_left, scan_up, orDefault, h11, pyTruthy]

/-- C3 witness: a concrete empty sheet with the selection at (1,1). -/
theorem C3_witness :
    (∀ r c, (fun _ _ => some CellValue.empty : Sheet) r c =
      some CellValue.empty) ∧
    (⟨fun _ _ => some CellValue.empty, 1, 1, "$A$1"⟩ : SelProps).row = 1 ∧
    (⟨fun _ _ => some CellValue.empty, 1, 1, "$A$1"⟩ : SelProps).column = 1 ∧
    (get_context Selection.noSel = none ∧
     get_context (Selection.broken "boom") =
       some ⟨"UNKNOWN", "Unknown Period", "Unknown Item", "?"⟩ ∧
     get_context (Selection.ok ⟨fun _ _ => some CellValue.empty, 1, 1, "$A$1"⟩) =
       some ⟨"UNKNOWN", "Unknown Period", "Unknown Line Item", "$A$1"⟩) :=
  ⟨fun _ _ => rfl, rfl, rfl,
   C3_amended_defaults "boom" ⟨fun _ _ => some CellValue.empty, 1, 1, "$A$1"⟩
     (fun _ _ => rfl) rfl rfl⟩

/-- C8: on the normal path, lineItemLabel comes from the first label-like
cell scanning columns column-1 down to 1 in the selection's row,
periodLabel from the first label-like cell scanning rows row-1 down to 1 in
the selection's column, and the ticker from cell (1,1) when its value is
label-like (each value stripped of surrounding whitespace as the code
stores it); and on strings, label-like is exactly: stripped value non-empty
and not parseable as a number once comma, dollar and percent characters are
removed. -/
theorem C8_scan_semantics (p : SelProps) (c r : Nat)
    (hc0 : 0 < c) (hcw : c < p.column)
    (hclab : is_likely_label (safe_read_cell p.sheet p.row c) = true)
    (hcfirst : ∀ c', c < c' → c' < p.column →
      is_likely_label (safe_read_cell p.sheet p.row c') = false)
    (hr0 : 0 < r) (hrw : r < p.row)
    (hrlab : is_likely_label (safe_read_cell p.sheet r p.column) = true)
    (hrfirst : ∀ r', r < r' → r' < p.row →
      is_likely_label (safe_read_cell p.sheet r' p.column) = false)
    (htick : is_likely_label (safe_read_cell p.sheet 1 1) = true) :
    get_context (Selection.ok p) = some
      ⟨pyStrip (pyStr (safe_read_cell p.sheet 1 1)),
       pyStrip (pyStr (safe_read_cell p.sheet r p.column)),
       pyStrip (pyStr (safe_read_cell p.sheet p.row c)),
       p.address⟩ ∧
    (∀ s : String, is_likely_label (CellValue.str s) = true ↔
      (pyStrip s ≠ "" ∧
       pyFloatAccepts (strip_numeric_punct (pyStrip s)) = false)) := by
  constructor
  · have hl := scan_left_found p.sheet p.row (p.column - 1) c hc0 (by omega)
      hclab (fun c' h1 h2 => hcfirst c' h1 (by omega))
    have hu := scan_up_found p.sheet p.column (p.row - 1) r hr0 (by omega)
      hrlab (fun r' h1 h2 => hrfirst r' h1 (by omega))
    have hne1 := is_likely_label_strip_ne hclab
    have hne2 := is_likely_label_strip_ne hrlab
    have ht := is_likely_label_truthy htick
    have htne := is_likely_label_strip_ne htick
    simp [get_context, hl, hu, orDefault, hne1, hne2, ht, htick]
  · intro s
    by_cases hs : pyStrip s = ""
    · simp [is_likely_label, hs]
    · simp [is_likely_label, hs]

/-- A sheet for the C8 witness: ticker at (1,1), a period header at (1,2),
a line-item label at (2,1), all other cells empty. -/
def c8sheet : Sheet := fun r c =>
  if r = 1 ∧ c = 1 then some (.str "AAPL")
  else if r = 1 ∧ c = 2 then some (.str "Q1 2024")
  else if r = 2 ∧ c = 1 then some (.str "Revenue")
  else some .empty

/-- C8 witness: selection at (2,2) on `c8sheet`. -/
theorem C8_witness :
    (0 < 1) ∧ (1 < (⟨c8sheet, 2, 2, "$B$2"⟩ : SelProps).column) ∧
    is_likely_label (safe_read_cell c8sheet 2 1) = true ∧
    (∀ c', 1 < c' → c' < 2 →
      is_likely_label (safe_read_cell c8sheet 2 c') = false) ∧
    (1 < (⟨c8sheet, 2, 2, "$B$2"⟩ : SelProps).row) ∧
    is_likely_label (safe_read_cell c8sheet 1 2) = true ∧
    (∀ r', 1 < r' → r' < 2 →
      is_likely_label (safe_read_cell c8sheet r' 2) = false) ∧
    is_likely_label (safe_read_cell c8sheet 1 1) = true ∧
    (get_context (Selection.ok ⟨c8sheet, 2, 2, "$B$2"⟩) = some
      ⟨pyStrip (pyStr (safe_read_cell c8sheet 1 1)),
       pyStrip (pyStr (safe_read_cell c8sheet 1 2)),
       pyStrip (pyStr (safe_read_cell c8sheet 2 1)),
       "$B$2"⟩ ∧
     (∀ s : String, is_likely_label (CellValue.str s) = true ↔
       (pyStrip s ≠ "" ∧
        pyFloatAccepts (strip_numeric_punct (pyStrip s)) = false))) :=
  ⟨by decide, by decide, by decide,
   fun c' h1 h2 => by omega,
   by decide, by decide,
   fun r' h1 h2 => by omega,
   by decide,
   C8_scan_semantics ⟨c8sheet, 2, 2, "$B$2"⟩ 1 1 (by decide) (by decide)
     (by decide) (fun c' h1 h2 => by have h2' : c' < 2 := h2; omega)
     (by decide) (by decide) (by decide)
     (fun r' h1 h2 => by have h2' : r' < 2 := h2; omega) (by decide)⟩

/-- C1: when the wrapper's selection reports an owning sheet name different
from the live low-level interface's active sheet name, `get_active_selection`
succeeds on that very attempt — no error — with a handle whose sheet is the
live active sheet (resolved by name through the low-level interface) and
whose selection is rebuilt from the low-level interface's live row/column
coordinates on that already-resolved sheet. -/
theorem C1_staleness_correction (h : HostView) (w : WrapSel)
    (bookN liveSheet staleSheet : String) (r c : Nat)
    (hbook : h.apiActiveBook = some (some bookN))
    (hblook : h.bookLookup bookN = true)
    (hsheet : h.apiActiveSheet = some (some liveSheet))
    (hslook : h.sheetLookup liveSheet = true)
    (hwrap : h.wrapSel = some w)
    (hss : h.selSheetName = some staleSheet)
    (hne : staleSheet ≠ liveSheet)
    (hapi : h.apiSel = some (some (r, c))) :
    get_active_selection (fun _ => acquire_attempt h) MAX_RETRIES =
      ⟨some ⟨bookN, liveSheet, SelResult.fromApi r c⟩, 1, []⟩ := by
  have hrb : resolve_book h = .ok bookN := by
    rw [resolve_book, hbook]
    simp [hblook]
  have hrs : resolve_sheet h = .ok liveSheet := by
    rw [resolve_sheet, hsheet]
    simp [hslook]
  have hrsel : resolve_selection h = .ok (.fromApi r c) := by
    rw [resolve_selection, hwrap, hss]
    rw [liveActiveSheetName, hsheet]
    simp [hne, hapi]
  have hatt : acquire_attempt h = .ok ⟨bookN, liveSheet, .fromApi r c⟩ := by
    rw [acquire_attempt, hrb, hrs, hrsel]
    rfl
  rw [get_active_selection, MAX_RETRIES]
  rw [show List.range 3 = [0, 1, 2] from rfl]
  simp [retry_go, hatt]

/-- A host snapshot for the C1 witness: live active sheet "Sheet2", wrapper
selection cached from "Sheet1", live selection coordinates (5, 7). -/
def c1host : HostView :=
  ⟨some (some "Model.xlsx"), fun _ => true, some "Model.xlsx",
   some (some "Sheet2"), fun _ => true, some "Sheet2",
   some ⟨"$A$1", 1, 1⟩, some "Sheet1", some (some (5, 7))⟩

/-- C1 witness at the concrete host snapshot `c1host`. -/
theorem C1_witness :
    c1host.apiActiveBook = some (some "Model.xlsx") ∧
    c1host.bookLookup "Model.xlsx" = true ∧
    c1host.apiActiveSheet = some (some "Sheet2") ∧
    c1host.sheetLookup "Sheet2" = true ∧
    c1host.wrapSel = some ⟨"$A$1", 1, 1⟩ ∧
    c1host.selSheetName = some "Sheet1" ∧
    ("Sheet1" : String) ≠ "Sheet2" ∧
    c1host.apiSel = some (some (5, 7)) ∧
    get_active_selection (fun _ => acquire_attempt c1host) MAX_RETRIES =
      ⟨some ⟨"Model.xlsx", "Sheet2", SelResult.fromApi 5 7⟩, 1, []⟩ :=
  ⟨rfl, rfl, rfl, rfl, rfl, rfl, by decide, rfl,
   C1_staleness_correction c1host ⟨"$A$1", 1, 1⟩ "Model.xlsx" "Sheet2"
     "Sheet1" 5 7 rfl rfl rfl rfl rfl rfl (by decide) rfl⟩

/-- C2 counterexample: an attempt that raises a `ConnectionError` (here the
"No active workbook" precondition failure) is not reported immediately —
the blanket `except Exception` of `get_active_selection` catches it, and
the loop performs all three attempts with the two backoff sleeps 0.3s and
0.6s in between. -/
theorem C2_counterexample :
    (get_active_selection
      (fun _ => (Except.error
        (PyErr.connection "No active workbook. Please open a workbook.") :
        Except PyErr AcqHandle))
      MAX_RETRIES).attempts = 3 ∧
    (get_active_selection
      (fun _ => (Except.error
        (PyErr.connection "No active workbook. Please open a workbook.") :
        Except PyErr AcqHandle))
      MAX_RETRIES).delays =
        [RETRY_DELAY_BASE * 2 ^ 0, RETRY_DELAY_BASE * 2 ^ 1] ∧
    RETRY_DELAY_BASE * 2 ^ 0 = 3 / 10 ∧ RETRY_DELAY_BASE * 2 ^ 1 = 3 / 5 := by
  refine ⟨rfl, rfl, ?_, ?_⟩ <;> norm_num [RETRY_DELAY_BASE]

/-- C2 amended: `get_active_selection` does not special-case Connection
errors: an attempt failing with a `ConnectionError` is caught like any
other exception and retried with the full exponential-backoff schedule,
and only after all `max_retries` attempts does the function give up
(returning the all-`None` tuple). -/
theorem C2_amended_connection_errors_retried (msg : String) (n : Nat) :
    get_active_selection
      (fun _ => (Except.error (PyErr.connection msg) : Except PyErr AcqHandle))
      n = ⟨none, n, backoff_delays (n - 1)⟩ := by
  rw [get_active_selection, List.range_eq_range']
  rw [retry_go_all_fail
    (fun _ => (Except.error (PyErr.connection msg) : Except PyErr AcqHandle))
    n n 0 (by omega) (fun i _ => rfl)]
  rw [backoff_delays, List.range_eq_range']

/-- C7 counterexample: after exhausting all attempts the return value of
`get_active_selection` is the bare all-`None` tuple: it carries no error
message, and the value returned after transient-error exhaustion is
exactly the value returned after connection-error exhaustion, so the two
cases are not distinguishable from the result. -/
theorem C7_counterexample :
    get_active_selection
      (fun _ => (Except.error (PyErr.other "COM call failed: host busy") :
        Except PyErr AcqHandle)) MAX_RETRIES =
    get_active_selection
      (fun _ => (Except.error
        (PyErr.connection "No Excel running. Please open Excel first.") :
        Except PyErr AcqHandle)) MAX_RETRIES ∧
    (get_active_selection
      (fun _ => (Except.error (PyErr.other "COM call failed: host busy") :
        Except PyErr AcqHandle)) MAX_RETRIES).result = none := by
  constructor
  · rfl
  · rfl

/-- C7 amended: when every attempt fails, `get_active_selection` returns
`(None, None, None, None)` after starting all `n` attempts; the last
error's message is only printed, not carried in the return value. -/
theorem C7_amended_exhaustion_returns_none
    (body : Nat → Except PyErr AcqHandle) (n : Nat)
    (hfail : ∀ i, i < n → exceptFails (body i) = true) :
    (get_active_selection body n).result = none ∧
    (get_active_selection body n).attempts = n := by
  rw [get_active_selection, List.range_eq_range']
  rw [retry_go_all_fail body n n 0 (by omega)
    (fun i hi => by rw [Nat.zero_add]; exact hfail i (by omega))]
  exact ⟨rfl, rfl⟩

/-- C7 witness: a body failing with a stale-reference error on both of two
attempts. -/
theorem C7_amended_witness :
    (∀ i, i < 2 → exceptFails
      ((fun _ => (Except.error (PyErr.other "stale COM reference") :
        Except PyErr AcqHandle)) i) = true) ∧
    ((get_active_selection
        (fun _ => (Except.error (PyErr.other "stale COM reference") :
          Except PyErr AcqHandle)) 2).result = none ∧
     (get_active_selection
        (fun _ => (Except.error (PyErr.other "stale COM reference") :
          Except PyErr AcqHandle)) 2).attempts = 2) :=
  ⟨fun i _ => rfl,
   C7_amended_exhaustion_returns_none
     (fun _ => (Except.error (PyErr.other "stale COM reference") :
       Except PyErr AcqHandle)) 2 (fun i _ => rfl)⟩

/-- C4: in both retry loops the delay after the i-th failed attempt is
`RETRY_DELAY_BASE * 2 ^ i`, so the delay list is the non-decreasing
schedule `backoff_delays`; a dependency failing deterministically `k < n`
times and then succeeding makes `get_active_selection` succeed (and
likewise `add_note_to_cell` return `True`); and `add_note_to_cell` returns
`False` only once all `n` attempts have been started. -/
theorem C4_backoff_schedule
    (body : Nat → Except PyErr AcqHandle) (v : AcqHandle) (k n : Nat)
    (hk : k < n)
    (hfail : ∀ i, i < k → exceptFails (body i) = true)
    (hok : body k = .ok v)
    (sel : RangeSel) (text : String) (g : Nat → Bool) (kn : Nat)
    (hkn : kn < n)
    (hgf : ∀ i, i < kn → g i = true) (hgs : g kn = false) :
    get_active_selection body n = ⟨some v, k + 1, backoff_delays k⟩ ∧
    List.Chain' (· ≤ ·) (get_active_selection body n).delays ∧
    add_note_to_cell (some sel) text g n =
      (true, kn + 1, backoff_delays kn) ∧
    (∀ g2 : Nat → Bool,
      (add_note_to_cell (some sel) text g2 n).1 = false →
      (add_note_to_cell (some sel) text g2 n).2.1 = n) := by
  have h1 : get_active_selection body n = ⟨some v, k + 1, backoff_delays k⟩ := by
    rw [get_active_selection, List.range_eq_range']
    rw [retry_go_succeeds body n v k 0 n hk (by omega)
      (fun i hi => by rw [Nat.zero_add]; exact hfail i hi)
      (by rw [Nat.zero_add]; exact hok)]
    rw [backoff_delays, List.range_eq_range']
  refine ⟨h1, ?_, ?_, ?_⟩
  · rw [h1]
    exact backoff_delays_chain k
  · rw [add_note_to_cell, List.range_eq_range']
    rw [note_retry_succeeds g n kn 0 n hkn (by omega)
      (fun i hi => by rw [Nat.zero_add]; exact hgf i hi)
      (by rw [Nat.zero_add]; exact hgs)]
    rw [backoff_delays, List.range_eq_range']
  · intro g2 hf
    rw [add_note_to_cell] at hf ⊢
    rw [note_retry_false g2 n (List.range n) hf, List.length_range]

/-- A per-attempt outcome for the C4 witness: one transient failure, then
success. -/
def c4body : Nat → Except PyErr AcqHandle :=
  fun i => if i < 1 then .error (.other "COM busy")
           else .ok ⟨"Model.xlsx", "Sheet1", SelResult.fromApi 2 3⟩

/-- A per-attempt failure flag for the C4 witness mutator run: one failure,
then success. -/
def c4g : Nat → Bool := fun i => decide (i < 1)

/-- C4 witness: both loops run with `maxAttempts = 3`, failing once and
succeeding on the second attempt. -/
theorem C4_witness :
    (1 < 3) ∧
    (∀ i, i < 1 → exceptFails (c4body i) = true) ∧
    (c4body 1 = .ok ⟨"Model.xlsx", "Sheet1", SelResult.fromApi 2 3⟩) ∧
    (∀ i, i < 1 → c4g i = true) ∧
    (c4g 1 = false) ∧
    (get_active_selection c4body 3 =
      ⟨some ⟨"Model.xlsx", "Sheet1", SelResult.fromApi 2 3⟩, 2,
        backoff_delays 1⟩ ∧
     List.Chain' (· ≤ ·) (get_active_selection c4body 3).delays ∧
     add_note_to_cell (some ⟨1, 1, 1⟩) "note" c4g 3 =
       (true, 2, backoff_delays 1) ∧
     (∀ g2 : Nat → Bool,
       (add_note_to_cell (some ⟨1, 1, 1⟩) "note" g2 3).1 = false →
       (add_note_to_cell (some ⟨1, 1, 1⟩) "note" g2 3).2.1 = 3)) :=
  ⟨by decide,
   fun i hi => by
     have hi0 : i = 0 := by omega
     subst hi0; decide,
   rfl,
   fun i hi => by
     have hi0 : i = 0 := by omega
     subst hi0; decide,
   by decide,
   C4_backoff_schedule c4body ⟨"Model.xlsx", "Sheet1", SelResult.fromApi 2 3⟩
     1 3 (by decide)
     (fun i hi => by
       have hi0 : i = 0 := by omega
       subst hi0; decide)
     rfl ⟨1, 1, 1⟩ "note" c4g 1 (by decide)
     (fun i hi => by
       have hi0 : i = 0 := by omega
       subst hi0; decide)
     (by decide)⟩

end AxeAnnotate
